import Mathlib

/-!
Verification of the report-management core of the e-laporan-humas-polda
server. The handlers in `src/server/src/handlers` and the unnamed parts
(`getReports`, `getDashboardStats`, `addComment`, `getReportById`) are
shallowly embedded: the Postgres tables become lists inside a `DB` record,
`serial` primary keys are modelled by `length + 1` fresh ids, timestamps are
`Nat`, and each handler becomes a pure function that threads the `DB` state
and returns `Except String` where the handler can throw. SQL `ORDER BY
created_at DESC` (ties kept in insertion order) is modelled by a stable
insertion sort, and `ILIKE '%term%'` by case-insensitive substring search.
-/

namespace ELaporan

/-- The `user_role` enum of the schema. -/
inductive Role
  | STAFF
  | PIMPINAN
  | ADMIN
deriving DecidableEq, Repr

/-- The `report_status` enum of the schema. -/
inductive ReportStatus
  | DRAFT
  | SUBMITTED
  | APPROVED
  | REJECTED
deriving DecidableEq, Repr

/-- The review decision: `z.enum(['APPROVED', 'REJECTED'])` in the input schema. -/
inductive ReviewStatus
  | APPROVED
  | REJECTED
deriving DecidableEq, Repr

/-- Injection of a review decision into the report status enum. -/
def ReviewStatus.toReportStatus : ReviewStatus → ReportStatus
  | .APPROVED => ReportStatus.APPROVED
  | .REJECTED => ReportStatus.REJECTED

/-- A row of `usersTable`. -/
structure User where
  id : Nat
  username : String
  email : String
  password_hash : String
  full_name : String
  role : Role
  created_at : Nat
  updated_at : Nat
deriving DecidableEq, Repr

/-- A row of `reportsTable`. -/
structure Report where
  id : Nat
  title : String
  activity_date : Nat
  start_time : String
  end_time : String
  description : String
  location : String
  participants : String
  status : ReportStatus
  created_by : Nat
  created_at : Nat
  updated_at : Nat
deriving DecidableEq, Repr

/-- A row of `reportCommentsTable`. -/
structure ReportComment where
  id : Nat
  report_id : Nat
  user_id : Nat
  comment : String
  created_at : Nat
deriving DecidableEq, Repr

/-- A row of `reportAttachmentsTable`. -/
structure ReportAttachment where
  id : Nat
  report_id : Nat
  filename : String
  original_filename : String
  file_path : String
  file_size : Nat
  mime_type : String
  uploaded_at : Nat
deriving DecidableEq, Repr

/-- The database: the four tables of `db/schema.ts`. -/
structure DB where
  users : List User
  reports : List Report
  comments : List ReportComment
  attachments : List ReportAttachment
deriving DecidableEq, Repr

/-- `db.select().from(usersTable).where(eq(usersTable.id, userId))` and taking row 0. -/
def findUser (st : DB) (userId : Nat) : Option User :=
  st.users.find? (fun u => u.id == userId)

/-- `db.select().from(reportsTable).where(eq(reportsTable.id, reportId))` and taking row 0. -/
def findReport (st : DB) (reportId : Nat) : Option Report :=
  st.reports.find? (fun r => r.id == reportId)

/-- `reviewReportInputSchema`: report id, APPROVED or REJECTED, optional comment. -/
structure ReviewReportInput where
  report_id : Nat
  status : ReviewStatus
  comment : Option String
deriving DecidableEq, Repr

/-- JavaScript `String.prototype.trim`, modelled on the character list:
whitespace is stripped from both ends. -/
def jsTrim (s : String) : String :=
  ⟨((s.data.dropWhile Char.isWhitespace).reverse.dropWhile Char.isWhitespace).reverse⟩

/-- The comment row inserted by `reviewReport` when the trimmed comment is non-empty. -/
def reviewCommentRow (st : DB) (input : ReviewReportInput) (userId now : Nat) (c : String) :
    ReportComment :=
  { id := st.comments.length + 1
    report_id := input.report_id
    user_id := userId
    comment := jsTrim c
    created_at := now }

/-- Handler `reviewReport` of `src/server/src/handlers/review_report.ts`:
checks the acting user exists and has role PIMPINAN or ADMIN, the report
exists and is SUBMITTED, then sets the requested status (refreshing
`updated_at`) and, when the supplied comment is truthy and non-empty after
trimming, inserts the trimmed comment. -/
def reviewReport (st : DB) (input : ReviewReportInput) (userId now : Nat) :
    Except String (Report × DB) :=
  match findUser st userId with
  | none => .error "User not found"
  | some user =>
    if ¬ (user.role = Role.PIMPINAN ∨ user.role = Role.ADMIN) then
      .error "Insufficient permissions to review reports"
    else
      match findReport st input.report_id with
      | none => .error "Report not found"
      | some report =>
        if report.status ≠ ReportStatus.SUBMITTED then
          .error "Only submitted reports can be reviewed"
        else
          let updated : Report :=
            { report with status := input.status.toReportStatus, updated_at := now }
          let st1 : DB :=
            { st with reports := st.reports.map (fun r =>
                if r.id == input.report_id then
                  { r with status := input.status.toReportStatus, updated_at := now }
                else r) }
          let st2 : DB :=
            match input.comment with
            | some c =>
              if jsTrim c ≠ "" then
                { st1 with comments := st1.comments ++ [reviewCommentRow st input userId now c] }
              else st1
            | none => st1
          .ok (updated, st2)

/-- `updateReportInputSchema`: the report id plus optional patch fields. -/
structure UpdateReportInput where
  id : Nat
  title : Option String
  activity_date : Option Nat
  start_time : Option String
  end_time : Option String
  description : Option String
  location : Option String
  participants : Option String
  status : Option ReportStatus
deriving DecidableEq, Repr

/-- The `updateData` object of `updateReport`: every provided field is copied,
absent fields are left untouched, `updated_at` is always refreshed. -/
def applyPatch (input : UpdateReportInput) (r : Report) (now : Nat) : Report :=
  { r with
    updated_at := now
    title := input.title.getD r.title
    activity_date := input.activity_date.getD r.activity_date
    start_time := input.start_time.getD r.start_time
    end_time := input.end_time.getD r.end_time
    description := input.description.getD r.description
    location := input.location.getD r.location
    participants := input.participants.getD r.participants
    status := input.status.getD r.status }

/-- Handler `updateReport` of `src/server/src/handlers/update_report.ts`:
looks up the caller and the report; a STAFF caller may only update an own
report in DRAFT status (distinct error messages for the ownership and the
status violation); PIMPINAN and ADMIN may update any report. -/
def updateReport (st : DB) (input : UpdateReportInput) (userId now : Nat) :
    Except String (Report × DB) :=
  match findUser st userId with
  | none => .error "User not found"
  | some user =>
    match findReport st input.id with
    | none => .error "Report not found"
    | some existingReport =>
      let okResult : Except String (Report × DB) :=
        .ok (applyPatch input existingReport now,
          { st with reports := st.reports.map (fun r =>
              if r.id == input.id then applyPatch input r now else r) })
      if user.role = Role.STAFF then
        if existingReport.created_by ≠ userId then
          .error "Staff users can only update their own reports"
        else if existingReport.status ≠ ReportStatus.DRAFT then
          .error "Staff users can only update reports in DRAFT status"
        else okResult
      else okResult

/-- Handler `deleteReport` of `src/server/src/handlers/delete_report.ts`:
returns `false` without deleting when the report is absent or the caller is
neither the creator nor PIMPINAN nor ADMIN; otherwise deletes, which the
schema cascades to the comments and attachments of the report. -/
def deleteReport (st : DB) (reportId userId : Nat) (userRole : Role) : Bool × DB :=
  match findReport st reportId with
  | none => (false, st)
  | some reportData =>
    let canDelete : Bool :=
      reportData.created_by == userId || userRole == Role.PIMPINAN || userRole == Role.ADMIN
    if canDelete then
      (true,
        { st with
          reports := st.reports.filter (fun r => r.id ≠ reportId)
          comments := st.comments.filter (fun c => c.report_id ≠ reportId)
          attachments := st.attachments.filter (fun a => a.report_id ≠ reportId) })
    else (false, st)

/-- Handler `getReportById` (src/unnamed/part_008): fetches by primary key,
returns `none` when absent, and also returns `none` (instead of an error)
when the caller is STAFF and not the creator. -/
def getReportById (st : DB) (reportId userId : Nat) (userRole : Role) : Option Report :=
  match findReport st reportId with
  | none => none
  | some report =>
    if userRole = Role.STAFF ∧ report.created_by ≠ userId then none
    else some report

/-- `uploadAttachmentInputSchema`: attachment metadata for an existing report. -/
structure UploadAttachmentInput where
  report_id : Nat
  filename : String
  original_filename : String
  file_path : String
  file_size : Nat
  mime_type : String
deriving DecidableEq, Repr

/-- The attachment row inserted by `uploadAttachment`. -/
def newAttachment (st : DB) (input : UploadAttachmentInput) (now : Nat) : ReportAttachment :=
  { id := st.attachments.length + 1
    report_id := input.report_id
    filename := input.filename
    original_filename := input.original_filename
    file_path := input.file_path
    file_size := input.file_size
    mime_type := input.mime_type
    uploaded_at := now }

/-- Handler `uploadAttachment` of `src/server/src/handlers/upload_attachment.ts`:
fails when the report is absent, fails when the uploader is not the creator of
the report (the handler receives no role, so no role can bypass this), and
otherwise persists the attachment metadata. -/
def uploadAttachment (st : DB) (input : UploadAttachmentInput) (userId now : Nat) :
    Except String (ReportAttachment × DB) :=
  match findReport st input.report_id with
  | none => .error "Report not found"
  | some report =>
    if report.created_by ≠ userId then
      .error "Permission denied: Only report creators can add attachments"
    else
      .ok (newAttachment st input now,
        { st with attachments := st.attachments ++ [newAttachment st input now] })

/-- `addCommentInputSchema`: report id and comment text. -/
structure AddCommentInput where
  report_id : Nat
  comment : String
deriving DecidableEq, Repr

/-- The comment row inserted by `addComment`. -/
def newComment (st : DB) (input : AddCommentInput) (userId now : Nat) : ReportComment :=
  { id := st.comments.length + 1
    report_id := input.report_id
    user_id := userId
    comment := input.comment
    created_at := now }

/-- Handler `addComment` (src/unnamed/part_011): verifies only that the report
exists, then inserts the comment; no visibility or ownership check is made. -/
def addComment (st : DB) (input : AddCommentInput) (userId now : Nat) :
    Except String (ReportComment × DB) :=
  match findReport st input.report_id with
  | none => .error "Report not found"
  | some _ =>
    .ok (newComment st input userId now,
      { st with comments := st.comments ++ [newComment st input userId now] })

/-- Case-insensitive substring test, modelling `ilike(column, '%term%')`. -/
def containsCI (hay needle : String) : Bool :=
  decide (needle.toLower.toList <:+: hay.toLower.toList)

/-- `getReportsInputSchema` after zod parsing: filters plus resolved pagination. -/
structure GetReportsInput where
  status : Option ReportStatus
  created_by : Option Nat
  activity_date_from : Option Nat
  activity_date_to : Option Nat
  search : Option String
  limit : Nat
  offset : Nat
deriving DecidableEq, Repr

/-- A raw `getReports` request before zod validation: `limit` and `offset` may
be absent (zod then applies the defaults 20 and 0) and are arbitrary integers. -/
structure RawGetReportsInput where
  status : Option ReportStatus
  created_by : Option Nat
  activity_date_from : Option Nat
  activity_date_to : Option Nat
  search : Option String
  limit : Option Int
  offset : Option Int
deriving DecidableEq, Repr

/-- zod validation of `getReportsInputSchema`:
`limit: z.number().int().positive().max(100).default(20)` and
`offset: z.number().int().nonnegative().default(0)`; a request with
`limit ≤ 0`, `limit > 100` or `offset < 0` is rejected. -/
def getReportsInputSchema_parse (raw : RawGetReportsInput) : Option GetReportsInput :=
  let lim : Int := raw.limit.getD 20
  let off : Int := raw.offset.getD 0
  if 0 < lim ∧ lim ≤ 100 ∧ 0 ≤ off then
    some { status := raw.status
           created_by := raw.created_by
           activity_date_from := raw.activity_date_from
           activity_date_to := raw.activity_date_to
           search := raw.search
           limit := lim.toNat
           offset := off.toNat }
  else none

/-- The conjunction of the `conditions` array built by `getReports`
(src/unnamed/part_013): the STAFF scoping clause, then each filter, each
guarded by JavaScript truthiness of the corresponding input field (`some 0`
for `created_by` and `some ""` for `search` are falsy and skipped); the
`created_by` filter is additionally applied only for non-STAFF callers. -/
def reportMatches (input : GetReportsInput) (userId : Nat) (userRole : Role) (r : Report) : Bool :=
  (if userRole = Role.STAFF then r.created_by == userId else true)
  && (match input.status with
      | some s => r.status == s
      | none => true)
  && (match input.created_by with
      | some cb => if cb ≠ 0 ∧ userRole ≠ Role.STAFF then r.created_by == cb else true
      | none => true)
  && (match input.activity_date_from with
      | some d => decide (d ≤ r.activity_date)
      | none => true)
  && (match input.activity_date_to with
      | some d => decide (r.activity_date ≤ d)
      | none => true)
  && (match input.search with
      | some s =>
        if s ≠ "" then
          containsCI r.title s || containsCI r.description s || containsCI r.location s
        else true
      | none => true)

/-- `ORDER BY created_at DESC`: later rows never have a larger `created_at`. -/
def createdDesc (a b : Report) : Prop := b.created_at ≤ a.created_at

instance : DecidableRel createdDesc := fun a b => Nat.decLe b.created_at a.created_at

instance : IsTotal Report createdDesc := ⟨fun a b => Nat.le_total b.created_at a.created_at⟩

instance : IsTrans Report createdDesc := ⟨fun _ _ _ hab hbc => Nat.le_trans hbc hab⟩

/-- Stable sort by `created_at` descending, modelling
`orderBy(desc(reportsTable.created_at))` with ties kept in insertion order. -/
def sortReports (l : List Report) : List Report :=
  l.insertionSort createdDesc

/-- The result shape of `getReports`: the page plus the unpaginated total. -/
structure GetReportsResult where
  reports : List Report
  total : Nat
deriving DecidableEq, Repr

/-- Handler `getReports` (src/unnamed/part_013): filters by the built
conditions, orders by `created_at` descending, paginates the page with
`limit`/`offset`, and counts all rows matching the same conditions. -/
def getReports (st : DB) (input : GetReportsInput) (userId : Nat) (userRole : Role) :
    GetReportsResult :=
  let filtered := st.reports.filter (reportMatches input userId userRole)
  { reports := ((sortReports filtered).drop input.offset).take input.limit
    total := filtered.length }

/-- The result shape of `getDashboardStats`. -/
structure DashboardStats where
  total_reports : Nat
  draft_reports : Nat
  submitted_reports : Nat
  approved_reports : Nat
  rejected_reports : Nat
  recent_reports : List Report
deriving DecidableEq, Repr

/-- The role-scoping condition of `getDashboardStats` (src/unnamed/part_007):
STAFF sees only own reports, PIMPINAN and ADMIN see all. -/
def dashScope (userId : Nat) (userRole : Role) (r : Report) : Bool :=
  if userRole = Role.STAFF then r.created_by == userId else true

/-- Handler `getDashboardStats` (src/unnamed/part_007): five counts over the
role-scoped set (all, and one per status) plus the ten most recent
role-scoped reports by `created_at` descending. -/
def getDashboardStats (st : DB) (userId : Nat) (userRole : Role) : DashboardStats :=
  { total_reports := (st.reports.filter (dashScope userId userRole)).length
    draft_reports := (st.reports.filter (fun r =>
      dashScope userId userRole r && r.status == ReportStatus.DRAFT)).length
    submitted_reports := (st.reports.filter (fun r =>
      dashScope userId userRole r && r.status == ReportStatus.SUBMITTED)).length
    approved_reports := (st.reports.filter (fun r =>
      dashScope userId userRole r && r.status == ReportStatus.APPROVED)).length
    rejected_reports := (st.reports.filter (fun r =>
      dashScope userId userRole r && r.status == ReportStatus.REJECTED)).length
    recent_reports := (sortReports (st.reports.filter (dashScope userId userRole))).take 10 }

/-- Whether a handler call succeeded (did not throw). -/
def resultOk {α : Type} : Except String α → Bool
  | .ok _ => true
  | .error _ => false

/-- The status of the report returned by a successful call, if any. -/
def reviewedStatus : Except String (Report × DB) → Option ReportStatus
  | .ok (r, _) => some r.status
  | .error _ => none

/-- The database state after a successful call, if any. -/
def resultState {α : Type} : Except String (α × DB) → Option DB
  | .ok (_, st) => some st
  | .error _ => none

/-- A role fails the `['PIMPINAN', 'ADMIN'].includes` check exactly when it is STAFF. -/
theorem role_not_reviewer_iff (ro : Role) :
    ¬ (ro = Role.PIMPINAN ∨ ro = Role.ADMIN) ↔ ro = Role.STAFF := by
  cases ro <;> simp

section Examples

/-- Example STAFF user with id 1. -/
def exStaff1 : User :=
  { id := 1, username := "staff1", email := "s1@x", password_hash := "h1"
    full_name := "Staff One", role := Role.STAFF, created_at := 1, updated_at := 1 }

/-- Example STAFF user with id 2. -/
def exStaff2 : User :=
  { id := 2, username := "staff2", email := "s2@x", password_hash := "h2"
    full_name := "Staff Two", role := Role.STAFF, created_at := 2, updated_at := 2 }

/-- Example PIMPINAN user with id 3. -/
def exPimpinan : User :=
  { id := 3, username := "pimpinan", email := "p@x", password_hash := "h3"
    full_name := "Pimpinan", role := Role.PIMPINAN, created_at := 3, updated_at := 3 }

/-- Example ADMIN user with id 4. -/
def exAdmin : User :=
  { id := 4, username := "admin", email := "a@x", password_hash := "h4"
    full_name := "Admin", role := Role.ADMIN, created_at := 4, updated_at := 4 }

/-- Example SUBMITTED report with id 1, created by user 1. -/
def exReportSub : Report :=
  { id := 1, title := "T1", activity_date := 100, start_time := "09:00", end_time := "12:00"
    description := "D1", location := "L1", participants := "P1"
    status := ReportStatus.SUBMITTED, created_by := 1, created_at := 10, updated_at := 10 }

/-- Example DRAFT report with id 2, created by user 1. -/
def exReportDraft : Report :=
  { id := 2, title := "T2", activity_date := 101, start_time := "08:00", end_time := "10:00"
    description := "D2", location := "L2", participants := "P2"
    status := ReportStatus.DRAFT, created_by := 1, created_at := 20, updated_at := 20 }

/-- Example APPROVED report with id 3, created by user 1. -/
def exReportApproved : Report :=
  { id := 3, title := "T3", activity_date := 102, start_time := "13:00", end_time := "15:00"
    description := "D3", location := "L3", participants := "P3"
    status := ReportStatus.APPROVED, created_by := 1, created_at := 30, updated_at := 30 }

/-- Example DRAFT report with id 4, created by user 2. -/
def exReportOther : Report :=
  { id := 4, title := "T4", activity_date := 103, start_time := "07:00", end_time := "09:00"
    description := "D4", location := "L4", participants := "P4"
    status := ReportStatus.DRAFT, created_by := 2, created_at := 40, updated_at := 40 }

/-- Example database with four users and four reports. -/
def exDB : DB :=
  { users := [exStaff1, exStaff2, exPimpinan, exAdmin]
    reports := [exReportSub, exReportDraft, exReportApproved, exReportOther]
    comments := []
    attachments := [] }

end Examples

/-- C1: `reviewReport` throws if and only if the acting user does not exist,
the acting user has role STAFF, the report does not exist, or the status of
the report is not exactly SUBMITTED; when the caller has role PIMPINAN or
ADMIN and the report is SUBMITTED, it succeeds and the status of the
resulting report is exactly the requested APPROVED or REJECTED; when such a
caller targets a report that is not SUBMITTED (including an already APPROVED
or REJECTED one) the error is "Only submitted reports can be reviewed". -/
theorem reviewReport_throws_iff (st : DB) (input : ReviewReportInput) (userId now : Nat) :
    (resultOk (reviewReport st input userId now) = false ↔
      (findUser st userId = none ∨
        (∃ u, findUser st userId = some u ∧ u.role = Role.STAFF) ∨
        findReport st input.report_id = none ∨
        (∃ r, findReport st input.report_id = some r ∧ r.status ≠ ReportStatus.SUBMITTED)))
    ∧ (∀ u r, findUser st userId = some u → (u.role = Role.PIMPINAN ∨ u.role = Role.ADMIN) →
        findReport st input.report_id = some r → r.status = ReportStatus.SUBMITTED →
        reviewedStatus (reviewReport st input userId now) = some input.status.toReportStatus)
    ∧ (∀ u r, findUser st userId = some u → (u.role = Role.PIMPINAN ∨ u.role = Role.ADMIN) →
        findReport st input.report_id = some r → r.status ≠ ReportStatus.SUBMITTED →
        reviewReport st input userId now =
          .error "Only submitted reports can be reviewed") := by
  refine ⟨?_, ?_, ?_⟩
  · cases hu : findUser st userId with
    | none => simp [reviewReport, hu, resultOk]
    | some u =>
      by_cases hrole : u.role = Role.PIMPINAN ∨ u.role = Role.ADMIN
      · cases hr : findReport st input.report_id with
        | none => simp [reviewReport, hu, hrole, hr, resultOk]
        | some r =>
          by_cases hs : r.status = ReportStatus.SUBMITTED
          · simp [reviewReport, hu, hrole, hr, hs, resultOk]
            rcases hrole with h | h <;> simp [h]
          · simp [reviewReport, hu, hrole, hr, hs, resultOk]
      · have hstaff : u.role = Role.STAFF := (role_not_reviewer_iff u.role).mp hrole
        simp [reviewReport, hu, hrole, resultOk, hstaff]
  · intro u r hu hrole hr hs
    simp [reviewReport, hu, (role_not_reviewer_iff u.role).not_right.mpr, hrole, hr, hs,
      reviewedStatus]
  · intro u r hu hrole hr hs
    simp [reviewReport, hu, hrole, hr, hs]

/-- C1 witness: in the example database, the PIMPINAN user 3 approving the
SUBMITTED report 1 succeeds and the resulting status is APPROVED. -/
theorem reviewReport_throws_iff_witness :
    reviewedStatus (reviewReport exDB
      { report_id := 1, status := ReviewStatus.APPROVED, comment := none } 3 50) =
      some ReviewStatus.APPROVED.toReportStatus ∧
    reviewReport exDB { report_id := 3, status := ReviewStatus.REJECTED, comment := none } 3 50 =
      .error "Only submitted reports can be reviewed" :=
  ⟨(reviewReport_throws_iff exDB
      { report_id := 1, status := ReviewStatus.APPROVED, comment := none } 3 50).2.1
    exPimpinan exReportSub (by decide) (Or.inl (by decide)) (by decide) (by decide),
   (reviewReport_throws_iff exDB
      { report_id := 3, status := ReviewStatus.REJECTED, comment := none } 3 50).2.2
    exPimpinan exReportApproved (by decide) (Or.inl (by decide)) (by decide) (by decide)⟩

/-- Membership in a `getReports` page implies the row satisfies the filter
predicate that built the page. -/
theorem mem_getReports_matches (st : DB) (input : GetReportsInput) (userId : Nat)
    (userRole : Role) (r : Report) (hr : r ∈ (getReports st input userId userRole).reports) :
    reportMatches input userId userRole r = true := by
  have hsub : (getReports st input userId userRole).reports ⊆
      sortReports (st.reports.filter (reportMatches input userId userRole)) :=
    ((List.take_sublist _ _).trans (List.drop_sublist _ _)).subset
  have h1 := hsub hr
  rw [sortReports, List.mem_insertionSort] at h1
  exact (List.mem_filter.mp h1).2

/-- C2: for a STAFF caller, every report returned by `getReports` was created
by the caller; the `created_by` filter is silently ignored for STAFF (the
result does not depend on it); PIMPINAN and ADMIN callers may filter by an
arbitrary (nonzero) `created_by` and then receive only reports of that
creator. -/
theorem getReports_staff_scoped (st : DB) (input : GetReportsInput) (userId : Nat) :
    (∀ r ∈ (getReports st input userId Role.STAFF).reports, r.created_by = userId)
    ∧ (∀ cb, getReports st { input with created_by := cb } userId Role.STAFF =
        getReports st input userId Role.STAFF)
    ∧ (∀ role cb, role ≠ Role.STAFF → input.created_by = some cb → cb ≠ 0 →
        ∀ r ∈ (getReports st input userId role).reports, r.created_by = cb) := by
  refine ⟨?_, ?_, ?_⟩
  · intro r hr
    have h := mem_getReports_matches st input userId Role.STAFF r hr
    rw [reportMatches] at h
    simp only [Bool.and_eq_true] at h
    have h1 := h.1.1.1.1.1
    simpa using h1
  · intro cb
    have hpred : reportMatches { input with created_by := cb } userId Role.STAFF =
        reportMatches input userId Role.STAFF := by
      funext r
      cases cb <;> cases h : input.created_by <;> simp [reportMatches, h]
    simp [getReports, hpred]
  · intro role cb hrole hcb hne r hr
    have h := mem_getReports_matches st input userId role r hr
    rw [reportMatches] at h
    simp only [Bool.and_eq_true, hcb] at h
    have h2 := h.1.1.1.2
    rw [if_pos ⟨hne, hrole⟩] at h2
    simpa using h2

/-- A `getReports` request with no filters and the default pagination. -/
def exGetInput : GetReportsInput :=
  { status := none, created_by := none, activity_date_from := none
    activity_date_to := none, search := none, limit := 20, offset := 0 }

/-- C2 witness: in the example database, report 1 from the STAFF page of user
1 was created by user 1; the page of user 1 is unchanged by a `created_by`
filter of 9; and an ADMIN filtering by creator 2 receives only reports of
user 2 (instantiated at report 4). -/
theorem getReports_staff_scoped_witness :
    exReportSub.created_by = 1 ∧
    getReports exDB { exGetInput with created_by := some 9 } 1 Role.STAFF =
      getReports exDB exGetInput 1 Role.STAFF ∧
    exReportOther.created_by = 2 :=
  ⟨(getReports_staff_scoped exDB exGetInput 1).1 exReportSub (by decide),
   (getReports_staff_scoped exDB exGetInput 1).2.1 (some 9),
   (getReports_staff_scoped exDB { exGetInput with created_by := some 2 } 1).2.2 Role.ADMIN 2
     (by decide) rfl (by decide) exReportOther (by decide)⟩

/-- C3: `updateReport` for a STAFF caller succeeds only on an own report in
DRAFT status, failing with the ownership message when the report is not own
and with the DRAFT message when an own report is not in DRAFT status;
PIMPINAN and ADMIN callers may update any existing report regardless of
status. -/
theorem updateReport_policy (st : DB) (input : UpdateReportInput) (userId now : Nat)
    (u : User) (r : Report)
    (hu : findUser st userId = some u) (hr : findReport st input.id = some r) :
    (u.role = Role.STAFF → r.created_by ≠ userId →
      updateReport st input userId now = .error "Staff users can only update their own reports")
    ∧ (u.role = Role.STAFF → r.created_by = userId → r.status ≠ ReportStatus.DRAFT →
      updateReport st input userId now =
        .error "Staff users can only update reports in DRAFT status")
    ∧ (u.role = Role.STAFF → r.created_by = userId → r.status = ReportStatus.DRAFT →
      resultOk (updateReport st input userId now) = true)
    ∧ ((u.role = Role.PIMPINAN ∨ u.role = Role.ADMIN) →
      resultOk (updateReport st input userId now) = true) := by
  refine ⟨?_, ?_, ?_, ?_⟩
  · intro hrole hown
    simp [updateReport, hu, hr, hrole, hown]
  · intro hrole hown hs
    simp [updateReport, hu, hr, hrole, hown, hs]
  · intro hrole hown hs
    simp [updateReport, hu, hr, hrole, hown, hs, resultOk]
  · intro hrole
    have hne : u.role ≠ Role.STAFF := by rcases hrole with h | h <;> simp [h]
    simp [updateReport, hu, hr, hne, resultOk]

/-- A patch for report 2 that changes only the title. -/
def exPatch : UpdateReportInput :=
  { id := 2, title := some "T2 v2", activity_date := none, start_time := none
    end_time := none, description := none, location := none, participants := none
    status := none }

/-- C3 witness: STAFF user 1 updating the own DRAFT report 2 succeeds; STAFF
user 2 updating the foreign report 2 fails with the ownership message; STAFF
user 1 updating the own APPROVED report 3 fails with the DRAFT message; the
ADMIN user 4 updating the APPROVED report 3 succeeds. -/
theorem updateReport_policy_witness :
    resultOk (updateReport exDB exPatch 1 60) = true ∧
    updateReport exDB exPatch 2 60 =
      .error "Staff users can only update their own reports" ∧
    updateReport exDB { exPatch with id := 3 } 1 60 =
      .error "Staff users can only update reports in DRAFT status" ∧
    resultOk (updateReport exDB { exPatch with id := 3 } 4 60) = true :=
  ⟨(updateReport_policy exDB exPatch 1 60 exStaff1 exReportDraft (by decide)
      (by decide)).2.2.1 (by decide) (by decide) (by decide),
   (updateReport_policy exDB exPatch 2 60 exStaff2 exReportDraft (by decide)
      (by decide)).1 (by decide) (by decide),
   (updateReport_policy exDB { exPatch with id := 3 } 1 60 exStaff1 exReportApproved (by decide)
      (by decide)).2.1 (by decide) (by decide) (by decide),
   (updateReport_policy exDB { exPatch with id := 3 } 4 60 exAdmin exReportApproved (by decide)
      (by decide)).2.2.2 (Or.inr (by decide))⟩

/-- C4: `getReportById` returns `none` (and cannot throw) both when no report
with the id exists and when the report exists but the caller is STAFF and not
the creator; the two cases give the same observable result `none`, and any
PIMPINAN or ADMIN caller receives any existing report. -/
theorem getReportById_soft (st : DB) (reportId userId : Nat) (userRole : Role) :
    (findReport st reportId = none → getReportById st reportId userId userRole = none)
    ∧ (∀ r, findReport st reportId = some r → userRole = Role.STAFF →
        r.created_by ≠ userId → getReportById st reportId userId userRole = none)
    ∧ (∀ r, findReport st reportId = some r →
        (userRole = Role.PIMPINAN ∨ userRole = Role.ADMIN) →
        getReportById st reportId userId userRole = some r) := by
  refine ⟨?_, ?_, ?_⟩
  · intro h
    simp [getReportById, h]
  · intro r h hrole hown
    simp [getReportById, h, hrole, hown]
  · intro r h hrole
    have hne : userRole ≠ Role.STAFF := by rcases hrole with h2 | h2 <;> simp [h2]
    simp [getReportById, h, hne]

/-- C4 witness: in the example database, a missing id 999 and a foreign
report 1 read by STAFF user 2 both give `none`, while the PIMPINAN user 3
receives report 1. -/
theorem getReportById_soft_witness :
    getReportById exDB 999 2 Role.STAFF = none ∧
    getReportById exDB 1 2 Role.STAFF = none ∧
    getReportById exDB 1 2 Role.PIMPINAN = some exReportSub :=
  ⟨(getReportById_soft exDB 999 2 Role.STAFF).1 (by decide),
   (getReportById_soft exDB 1 2 Role.STAFF).2.1 exReportSub (by decide) rfl (by decide),
   (getReportById_soft exDB 1 2 Role.PIMPINAN).2.2 exReportSub (by decide) (Or.inl rfl)⟩

/-- C5 counterexample: in the example database report 3 is an APPROVED (not
DRAFT) report created by STAFF user 1, yet `deleteReport` by user 1 with role
STAFF returns `true`; the claimed DRAFT-only restriction for STAFF does not
exist in the code. -/
theorem deleteReport_staff_nondraft_counterexample :
    (findReport exDB 3).map Report.status = some ReportStatus.APPROVED ∧
    (findReport exDB 3).map Report.created_by = some 1 ∧
    (findUser exDB 1).map User.role = some Role.STAFF ∧
    (deleteReport exDB 3 1 Role.STAFF).1 = true := by decide

/-- C5 (amended): `deleteReport` returns `false` (never throwing) when the
report does not exist or when the caller is neither the creator nor PIMPINAN
nor ADMIN, leaving the state unchanged; when the caller is the creator (any
report status, not only DRAFT) or has role PIMPINAN or ADMIN, it deletes the
report together with its comments and attachments and returns `true`. -/
theorem deleteReport_policy (st : DB) (reportId userId : Nat) (userRole : Role) :
    (findReport st reportId = none → deleteReport st reportId userId userRole = (false, st))
    ∧ (∀ r, findReport st reportId = some r → r.created_by ≠ userId →
        userRole = Role.STAFF → deleteReport st reportId userId userRole = (false, st))
    ∧ (∀ r, findReport st reportId = some r →
        (r.created_by = userId ∨ userRole = Role.PIMPINAN ∨ userRole = Role.ADMIN) →
        deleteReport st reportId userId userRole =
          (true,
            { st with
              reports := st.reports.filter (fun x => x.id ≠ reportId)
              comments := st.comments.filter (fun c => c.report_id ≠ reportId)
              attachments := st.attachments.filter (fun a => a.report_id ≠ reportId) })) := by
  refine ⟨?_, ?_, ?_⟩
  · intro h
    simp [deleteReport, h]
  · intro r h hown hrole
    simp [deleteReport, h, hown, hrole]
  · intro r h hcan
    have hc : (r.created_by == userId || userRole == Role.PIMPINAN
        || userRole == Role.ADMIN) = true := by
      rcases hcan with h2 | h2 | h2 <;> simp [h2]
    simp [deleteReport, h, hc]

/-- C5 witness: in the example database, deleting the missing id 999 returns
`false`; STAFF user 2 deleting the foreign report 1 returns `false`; STAFF
user 1 deleting the own APPROVED report 3 returns `true` and removes it. -/
theorem deleteReport_policy_witness :
    deleteReport exDB 999 2 Role.STAFF = (false, exDB) ∧
    deleteReport exDB 1 2 Role.STAFF = (false, exDB) ∧
    deleteReport exDB 3 1 Role.STAFF =
      (true,
        { exDB with
          reports := exDB.reports.filter (fun x => x.id ≠ 3)
          comments := exDB.comments.filter (fun c => c.report_id ≠ 3)
          attachments := exDB.attachments.filter (fun a => a.report_id ≠ 3) }) :=
  ⟨(deleteReport_policy exDB 999 2 Role.STAFF).1 (by decide),
   (deleteReport_policy exDB 1 2 Role.STAFF).2.1 exReportSub (by decide) (by decide) rfl,
   (deleteReport_policy exDB 3 1 Role.STAFF).2.2 exReportApproved (by decide)
     (Or.inl (by decide))⟩

/-- C6: on a successful review, `reviewReport` appends exactly one comment
holding the trimmed text of the supplied comment when that text is non-empty
after trimming; when the comment is absent or trims to the empty string, no
comment is recorded and the call still succeeds. -/
theorem reviewReport_comment_recording (st : DB) (input : ReviewReportInput) (userId now : Nat)
    (u : User) (r : Report)
    (hu : findUser st userId = some u) (hrole : u.role = Role.PIMPINAN ∨ u.role = Role.ADMIN)
    (hr : findReport st input.report_id = some r) (hs : r.status = ReportStatus.SUBMITTED) :
    (∀ c, input.comment = some c → jsTrim c ≠ "" →
      (resultState (reviewReport st input userId now)).map DB.comments =
        some (st.comments ++ [reviewCommentRow st input userId now c]))
    ∧ (∀ c, input.comment = some c → jsTrim c = "" →
      (resultState (reviewReport st input userId now)).map DB.comments = some st.comments)
    ∧ (input.comment = none →
      (resultState (reviewReport st input userId now)).map DB.comments = some st.comments) := by
  refine ⟨?_, ?_, ?_⟩
  · intro c hc hne
    simp [reviewReport, hu, hrole, hr, hs, hc, hne, resultState]
  · intro c hc hemp
    simp [reviewReport, hu, hrole, hr, hs, hc, hemp, resultState]
  · intro hc
    simp [reviewReport, hu, hrole, hr, hs, hc, resultState]

/-- The review request of scenario C: approve report 1 with comment "  ok  ". -/
def exReviewIn : ReviewReportInput :=
  { report_id := 1, status := ReviewStatus.APPROVED, comment := some "  ok  " }

/-- C6 witness: the PIMPINAN user 3 approving report 1 with comment
"  ok  " stores exactly one comment, and its stored text is the trimmed
"ok"; the same review with a whitespace-only comment stores none. -/
theorem reviewReport_comment_recording_witness :
    (resultState (reviewReport exDB exReviewIn 3 70)).map DB.comments =
      some (exDB.comments ++ [reviewCommentRow exDB exReviewIn 3 70 "  ok  "]) ∧
    (reviewCommentRow exDB exReviewIn 3 70 "  ok  ").comment = "ok" ∧
    (resultState (reviewReport exDB { exReviewIn with comment := some "   " } 3 70)).map
      DB.comments = some exDB.comments :=
  ⟨(reviewReport_comment_recording exDB exReviewIn 3 70 exPimpinan exReportSub (by decide)
      (Or.inl (by decide)) (by decide) (by decide)).1 "  ok  " rfl (by decide),
   by decide,
   (reviewReport_comment_recording exDB { exReviewIn with comment := some "   " } 3 70
      exPimpinan exReportSub (by decide) (Or.inl (by decide)) (by decide) (by decide)).2.1
     "   " rfl (by decide)⟩

/-- C7: `uploadAttachment` fails with the NotFound error when the report is
absent and with the PermissionDenied error whenever the uploader is not the
creator of the report — the handler receives no role argument, so PIMPINAN
and ADMIN uploaders are rejected exactly like any other non-creator; only the
creator may attach, and on success the attachment row carrying the supplied
metadata is appended. -/
theorem uploadAttachment_creator_only (st : DB) (input : UploadAttachmentInput)
    (userId now : Nat) :
    (findReport st input.report_id = none →
      uploadAttachment st input userId now = .error "Report not found")
    ∧ (∀ r, findReport st input.report_id = some r → r.created_by ≠ userId →
        uploadAttachment st input userId now =
          .error "Permission denied: Only report creators can add attachments")
    ∧ (∀ r, findReport st input.report_id = some r → r.created_by = userId →
        uploadAttachment st input userId now =
          .ok (newAttachment st input now,
            { st with attachments := st.attachments ++ [newAttachment st input now] }))
    ∧ ((newAttachment st input now).report_id = input.report_id
        ∧ (newAttachment st input now).filename = input.filename
        ∧ (newAttachment st input now).original_filename = input.original_filename
        ∧ (newAttachment st input now).file_path = input.file_path
        ∧ (newAttachment st input now).file_size = input.file_size
        ∧ (newAttachment st input now).mime_type = input.mime_type) := by
  refine ⟨?_, ?_, ?_, rfl, rfl, rfl, rfl, rfl, rfl⟩
  · intro h
    simp [uploadAttachment, h]
  · intro r h hown
    simp [uploadAttachment, h, hown]
  · intro r h hown
    simp [uploadAttachment, h, hown]

/-- Example attachment metadata for report 1. -/
def exUpIn : UploadAttachmentInput :=
  { report_id := 1, filename := "f.png", original_filename := "orig.png"
    file_path := "/store/f.png", file_size := 5, mime_type := "image/png" }

/-- C7 witness: uploading to the missing report 999 fails with NotFound; the
ADMIN user 4 uploading to report 1 (created by user 1) is rejected despite
the elevated role; the creator user 1 succeeds. -/
theorem uploadAttachment_creator_only_witness :
    uploadAttachment exDB { exUpIn with report_id := 999 } 4 90 = .error "Report not found" ∧
    uploadAttachment exDB exUpIn 4 90 =
      .error "Permission denied: Only report creators can add attachments" ∧
    uploadAttachment exDB exUpIn 1 90 =
      .ok (newAttachment exDB exUpIn 90,
        { exDB with attachments := exDB.attachments ++ [newAttachment exDB exUpIn 90] }) :=
  ⟨(uploadAttachment_creator_only exDB { exUpIn with report_id := 999 } 4 90).1 (by decide),
   (uploadAttachment_creator_only exDB exUpIn 4 90).2.1 exReportSub (by decide) (by decide),
   (uploadAttachment_creator_only exDB exUpIn 1 90).2.2.1 exReportSub (by decide) (by decide)⟩

/-- C8 counterexample: STAFF user 2 is not the creator of report 1 (created
by user 1), so the claimed View-policy check would reject the comment, yet
`addComment` succeeds: the handler checks only report existence. -/
theorem addComment_no_view_check_counterexample :
    (findUser exDB 2).map User.role = some Role.STAFF ∧
    (findReport exDB 1).map Report.created_by = some 1 ∧
    resultOk (addComment exDB { report_id := 1, comment := "hi" } 2 80) = true := by decide

/-- C8 (amended): `addComment` fails with NotFound when the referenced report
does not exist; when the report exists the comment is appended for every
caller — no View-policy, role, or ownership check is performed (the handler
does not even receive the role of the caller). -/
theorem addComment_existence_only (st : DB) (input : AddCommentInput) (userId now : Nat) :
    (findReport st input.report_id = none →
      addComment st input userId now = .error "Report not found")
    ∧ (∀ r, findReport st input.report_id = some r →
        addComment st input userId now =
          .ok (newComment st input userId now,
            { st with comments := st.comments ++ [newComment st input userId now] })) := by
  refine ⟨?_, ?_⟩
  · intro h
    simp [addComment, h]
  · intro r h
    simp [addComment, h]

/-- C8 witness: commenting on the missing report 999 fails with NotFound;
STAFF user 2 commenting on the foreign report 1 succeeds. -/
theorem addComment_existence_only_witness :
    addComment exDB { report_id := 999, comment := "hi" } 2 80 = .error "Report not found" ∧
    addComment exDB { report_id := 1, comment := "hi" } 2 80 =
      .ok (newComment exDB { report_id := 1, comment := "hi" } 2 80,
        { exDB with comments := exDB.comments ++
            [newComment exDB { report_id := 1, comment := "hi" } 2 80] }) :=
  ⟨(addComment_existence_only exDB { report_id := 999, comment := "hi" } 2 80).1 (by decide),
   (addComment_existence_only exDB { report_id := 1, comment := "hi" } 2 80).2 exReportSub
     (by decide)⟩

/-- A raw `getReports` request with no filters and no pagination fields. -/
def exRawNone : RawGetReportsInput :=
  { status := none, created_by := none, activity_date_from := none
    activity_date_to := none, search := none, limit := none, offset := none }

/-- C9: accepted pagination always satisfies `0 < limit ≤ 100` with default
20 (and offset defaults to 0, non-negative by construction); the returned
total counts all reports matching every applied filter while ignoring the
pagination; the page is the filtered set ordered by `created_at` descending,
cut by `offset` and `limit`, hence sorted and of size at most `limit`. -/
theorem getReports_pagination (raw : RawGetReportsInput) (input : GetReportsInput)
    (st : DB) (userId : Nat) (userRole : Role)
    (hp : getReportsInputSchema_parse raw = some input) :
    (0 < input.limit ∧ input.limit ≤ 100)
    ∧ (raw.limit = none → input.limit = 20)
    ∧ (raw.offset = none → input.offset = 0)
    ∧ (getReports st input userId userRole).total =
        (st.reports.filter (reportMatches input userId userRole)).length
    ∧ (getReports st input userId userRole).reports =
        ((sortReports (st.reports.filter (reportMatches input userId userRole))).drop
          input.offset).take input.limit
    ∧ List.Sorted createdDesc (getReports st input userId userRole).reports
    ∧ (getReports st input userId userRole).reports.length ≤ input.limit := by
  rw [getReportsInputSchema_parse] at hp
  split at hp
  case isFalse => exact absurd hp (by simp)
  case isTrue hcond =>
    obtain ⟨hl0, hl100, hoff⟩ := hcond
    have hinput := (Option.some_inj.mp hp).symm
    refine ⟨?_, ?_, ?_, rfl, rfl, ?_, ?_⟩
    · rw [hinput]
      constructor <;> simp <;> omega
    · intro hnone
      rw [hinput]
      simp [hnone]
    · intro hnone
      rw [hinput]
      simp [hnone]
    · have hsorted : List.Sorted createdDesc
          (sortReports (st.reports.filter (reportMatches input userId userRole))) :=
        List.sorted_insertionSort createdDesc _
      exact List.Pairwise.sublist ((List.take_sublist _ _).trans (List.drop_sublist _ _)) hsorted
    · simp [getReports, List.length_take]

/-- C9 witness: parsing the request with absent pagination yields limit 20
and offset 0, within the cap, and the page of the example database for the
ADMIN caller has at most `limit` rows. -/
theorem getReports_pagination_witness :
    (0 < exGetInput.limit ∧ exGetInput.limit ≤ 100) ∧
    exGetInput.limit = 20 ∧ exGetInput.offset = 0 ∧
    (getReports exDB exGetInput 1 Role.ADMIN).reports.length ≤ exGetInput.limit := by
  have h := getReports_pagination exRawNone exGetInput exDB 1 Role.ADMIN (by decide)
  exact ⟨h.1, h.2.1 rfl, h.2.2.1 rfl, h.2.2.2.2.2.2⟩

/-- Splitting a filtered count by the four report statuses: every report has
exactly one status, so the four status-restricted counts partition the total. -/
theorem length_filter_status_partition (l : List Report) (p : Report → Bool) :
    (l.filter p).length =
      (l.filter (fun r => p r && r.status == ReportStatus.DRAFT)).length +
        (l.filter (fun r => p r && r.status == ReportStatus.SUBMITTED)).length +
        (l.filter (fun r => p r && r.status == ReportStatus.APPROVED)).length +
        (l.filter (fun r => p r && r.status == ReportStatus.REJECTED)).length := by
  induction l with
  | nil => simp
  | cons x xs ih =>
    cases hp : p x <;> cases hs : x.status <;>
      simp [List.filter_cons, hp, hs, ih] <;> omega

/-- C10: the dashboard totals satisfy
`total = draft + submitted + approved + rejected`, all five counts range over
the same role-scoped report set (STAFF callers see only own reports), and
`recent_reports` holds at most 10 reports, all drawn from that same
role-scoped set. -/
theorem getDashboardStats_consistent (st : DB) (userId : Nat) (userRole : Role) :
    ((getDashboardStats st userId userRole).total_reports =
      (getDashboardStats st userId userRole).draft_reports +
        (getDashboardStats st userId userRole).submitted_reports +
        (getDashboardStats st userId userRole).approved_reports +
        (getDashboardStats st userId userRole).rejected_reports)
    ∧ (getDashboardStats st userId userRole).total_reports =
        (st.reports.filter (dashScope userId userRole)).length
    ∧ (getDashboardStats st userId userRole).recent_reports.length ≤ 10
    ∧ (∀ r ∈ (getDashboardStats st userId userRole).recent_reports,
        r ∈ st.reports ∧ dashScope userId userRole r = true) := by
  refine ⟨?_, rfl, ?_, ?_⟩
  · simpa [getDashboardStats] using
      length_filter_status_partition st.reports (dashScope userId userRole)
  · simp [getDashboardStats, List.length_take]
  · intro r hr
    have h1 : r ∈ sortReports (st.reports.filter (dashScope userId userRole)) :=
      (List.take_sublist _ _).subset hr
    rw [sortReports, List.mem_insertionSort] at h1
    exact ⟨(List.mem_filter.mp h1).1, (List.mem_filter.mp h1).2⟩

/-- C10 witness: for STAFF user 1 on the example database the partition
equation holds concretely, and report 3 — drawn from the recent list — is a
stored report inside the scope of user 1. -/
theorem getDashboardStats_consistent_witness :
    (getDashboardStats exDB 1 Role.STAFF).total_reports =
      (getDashboardStats exDB 1 Role.STAFF).draft_reports +
        (getDashboardStats exDB 1 Role.STAFF).submitted_reports +
        (getDashboardStats exDB 1 Role.STAFF).approved_reports +
        (getDashboardStats exDB 1 Role.STAFF).rejected_reports ∧
    exReportApproved ∈ exDB.reports ∧ dashScope 1 Role.STAFF exReportApproved = true := by
  have h := getDashboardStats_consistent exDB 1 Role.STAFF
  exact ⟨h.1, h.2.2.2 exReportApproved (by decide)⟩

end ELaporan
